import Mathlib

/-!
Verification of the decision core of the `sol-discord-bot` repository.

The development is a shallow embedding of the Python sources:

* `src/utils/message_tracker.py` — the `MessageTracker` class (context store,
  burst detection, patience decision);
* `src/utils/decision_engine.py` — the `DecisionEngine` class
  (`should_respond`, `_ask_ai`, `get_violation_count`,
  `decide_response_length`, `should_wait_longer`);
* `src/bot.py` — the `on_message` engagement pipeline and the moderation
  escalation (warning cooldown, auto-timeout).

Conventions of the embedding:

* Python `time.time()` values are modelled as rationals (`ℚ`); every place the
  source calls the clock becomes an explicit timestamp parameter.
* Python dicts are modelled as association lists in insertion order:
  assignment replaces the first matching key in place or appends a fresh key
  at the end, exactly like a Python `dict`.
* The external oracle (OpenRouter HTTP call) is an explicit input: either the
  request raised (connection error / timeout) or it produced a status code
  and, optionally, the text content of the first choice.  `json.loads` of the
  brace-delimited substring of that text is an explicit parsing parameter,
  since the JSON decoder is a Python-stdlib external.
* Python's negative-index slice `xs[-n:]` is modelled by `pySliceLast`,
  including the `n = 0` corner case where `xs[-0:]` is the whole list.
-/

namespace Sol

/-- Whether `needle` is an initial segment of `hay` (on character lists;
the core `String` primitives use well-founded recursion, so the embedding
works on `String.data` throughout to stay computable by the kernel). -/
def charListStarts : List Char → List Char → Bool
  | [], _ => true
  | _ :: _, [] => false
  | a :: as, b :: bs => a == b && charListStarts as bs

/-- Whether `needle` occurs somewhere in `hay`. -/
def charListOccurs (needle : List Char) : List Char → Bool
  | [] => needle.isEmpty
  | c :: rest => charListStarts needle (c :: rest) || charListOccurs needle rest

/-- Python `sub in s` membership test on strings. -/
def containsSub (s sub : String) : Bool :=
  charListOccurs sub.data s.data

/-- Python `s.startswith(pre)`. -/
def pyStartsWith (s pre : String) : Bool :=
  charListStarts pre.data s.data

/-- Python `s.lower()` (ASCII case fold, which agrees with the Python
method on all the ASCII text the source manipulates). -/
def pyLower (s : String) : String :=
  ⟨s.data.map Char.toLower⟩

/-- Python `s.strip()`: drop leading and trailing whitespace. -/
def pyStrip (s : String) : String :=
  ⟨((s.data.dropWhile Char.isWhitespace).reverse.dropWhile
      Char.isWhitespace).reverse⟩

/-- Helper of `pysplit`: walk the characters, accumulating the current word
in reverse. -/
def splitWsAux : List Char → List Char → List String
  | [], acc => if acc.isEmpty then [] else [⟨acc.reverse⟩]
  | c :: rest, acc =>
    if c.isWhitespace then
      if acc.isEmpty then splitWsAux rest []
      else (⟨acc.reverse⟩ : String) :: splitWsAux rest []
    else splitWsAux rest (c :: acc)

/-- Python `s.split()`: split on whitespace runs, discarding empty chunks. -/
def pysplit (s : String) : List String :=
  splitWsAux s.data []

/-- Python `xs[-n:]` for a non-negative `n`.  For `n = 0` Python evaluates
`xs[-0:] = xs[0:]`, the whole list; otherwise it is the last `n` elements. -/
def pySliceLast (n : Nat) (l : List α) : List α :=
  if n = 0 then l else l.drop (l.length - n)

/-- Key of a context bucket: `(user_id, channel_id)`. -/
abbrev BKey := Nat × Nat

/-- Python dict lookup on an association list (first matching key). -/
def alistGet : List (BKey × α) → BKey → Option α
  | [], _ => none
  | (k, v) :: rest, key => if k = key then some v else alistGet rest key

/-- Python `key in dict`. -/
def alistHas (l : List (BKey × α)) (key : BKey) : Bool :=
  (alistGet l key).isSome

/-- Python dict assignment `d[key] = v`: replace in place if the key exists,
otherwise append the new key at the end (dicts preserve insertion order). -/
def alistSet : List (BKey × α) → BKey → α → List (BKey × α)
  | [], key, v => [(key, v)]
  | (k, w) :: rest, key, v =>
    if k = key then (k, v) :: rest else (k, w) :: alistSet rest key v

/-- Python `del d[key]` (also a no-op when the key is absent, which is the
only way the source uses it after an explicit membership test). -/
def alistRemove (l : List (BKey × α)) (key : BKey) : List (BKey × α) :=
  l.filter (fun p => p.1 ≠ key)

/-- One stored message of `MessageTracker.messages` (`message_tracker.py`):
a dict with `timestamp`, `content`, `role` and `user_id` fields. -/
structure Rec where
  timestamp : ℚ
  content : String
  role : String
  user_id : String
  deriving Repr, DecidableEq

/-- The mutable state of a `MessageTracker` instance. -/
structure TrackerState where
  messages : List (BKey × List Rec)
  last_message_time : List (BKey × ℚ)
  message_burst_start : List (BKey × ℚ)
  context_window : Nat
  max_age_hours : Nat
  deriving Repr, DecidableEq

/-- `MessageTracker.__init__`. -/
def initTracker (context_window max_age_hours : Nat) : TrackerState :=
  ⟨[], [], [], context_window, max_age_hours⟩

/-- The trim step shared by `add_message` and `add_bot_response`:
`if len(msgs) > context_window: msgs = msgs[-context_window:]`. -/
def trimToWindow (cw : Nat) (l : List Rec) : List Rec :=
  if cw < l.length then pySliceLast cw l else l

/-- The age filter of `prune_user_messages` at clock `tp`, guarded by
`max_age_hours > 0` at the call sites inside `add_message`. -/
def pruneFilter (mah : Nat) (tp : ℚ) (l : List Rec) : List Rec :=
  if 0 < mah then l.filter (fun r => tp - r.timestamp < (mah : ℚ) * 3600)
  else l

/-- `MessageTracker.add_message(user_id, content, channel_id)`.

`t` is the `time.time()` read at the top of the method; `tp` is the separate
`time.time()` read inside `prune_user_messages` (the prune runs after the
append, so `t ≤ tp` for a real clock).  Returns the `is_burst` flag and the
new state.  The in-place `append`/prune/trim on `self.messages[key]` is
modelled by computing the final bucket and storing it once. -/
def add_message (uid cid : Nat) (content : String) (t tp : ℚ)
    (st : TrackerState) : Bool × TrackerState :=
  let key : BKey := (uid, cid)
  let burstInfo : Bool × List (BKey × ℚ) :=
    match alistGet st.last_message_time key with
    | some last =>
      if t - last < 15 then
        (true,
         if alistHas st.message_burst_start key then st.message_burst_start
         else alistSet st.message_burst_start key last)
      else
        (false, alistRemove st.message_burst_start key)
    | none => (false, st.message_burst_start)
  let msgs0 := (alistGet st.messages key).getD []
  let msgs1 := msgs0 ++ [⟨t, content, "user", toString uid⟩]
  let msgs3 := trimToWindow st.context_window (pruneFilter st.max_age_hours tp msgs1)
  (burstInfo.1,
   { st with
     messages := alistSet st.messages key msgs3
     last_message_time := alistSet st.last_message_time key t
     message_burst_start := burstInfo.2 })

/-- `MessageTracker.add_bot_response(user_id, content, channel_id)`:
append a record with role `"assistant"` and `user_id = "bot"`, then trim to
the context window (no age pruning on this path). -/
def add_bot_response (uid cid : Nat) (content : String) (t : ℚ)
    (st : TrackerState) : TrackerState :=
  let key : BKey := (uid, cid)
  let msgs0 := (alistGet st.messages key).getD []
  let msgs1 := msgs0 ++ [⟨t, content, "assistant", "bot"⟩]
  { st with
    messages := alistSet st.messages key (trimToWindow st.context_window msgs1) }

/-- `MessageTracker.prune_user_messages(user_id, channel_id)` at clock `tp`.
Note the `defaultdict` access inserts the key when absent. -/
def prune_user_messages (uid cid : Nat) (tp : ℚ) (st : TrackerState) :
    TrackerState :=
  if st.max_age_hours ≤ 0 then st
  else
    let key : BKey := (uid, cid)
    let msgs := (alistGet st.messages key).getD []
    { st with
      messages := alistSet st.messages key
        (msgs.filter (fun r => tp - r.timestamp < (st.max_age_hours : ℚ) * 3600)) }

/-- `MessageTracker.get_context(user_id, channel_id, extended)` at clock `tp`:
returns the `[{role, content}]` list and the state after the age prune (the
`defaultdict` read of `self.messages[key]` inserts an empty bucket when the
key is absent). -/
def get_context (uid cid : Nat) (tp : ℚ) (extended : Bool)
    (st : TrackerState) : List (String × String) × TrackerState :=
  let st1 := if 0 < st.max_age_hours then prune_user_messages uid cid tp st else st
  let key : BKey := (uid, cid)
  let st2 :=
    if alistHas st1.messages key then st1
    else { st1 with messages := st1.messages ++ [(key, [])] }
  let msgs := (alistGet st2.messages key).getD []
  let included :=
    if !extended then
      if st2.context_window < msgs.length then pySliceLast st2.context_window msgs
      else msgs
    else
      if 100 < msgs.length then pySliceLast 100 msgs else msgs
  (included.map (fun r => (r.role, r.content)), st2)

/-- `MessageTracker.get_recent_channel_messages(channel_id, count)`: merge all
buckets of the channel (dict iteration order), stable-sort descending by
timestamp (Python `list.sort(key=..., reverse=True)` is stable), take the
first `count`. -/
def get_recent_channel_messages (st : TrackerState) (cid count : Nat) :
    List Rec :=
  let channelMessages :=
    ((st.messages.filter (fun p => p.1.2 = cid)).map (fun p => p.2)).flatten
  (channelMessages.mergeSort (fun a b => b.timestamp ≤ a.timestamp)).take count

/-- `MessageTracker.is_thinking`: the body is `return False` before any other
statement (the former burst heuristic below it is dead code inside a string
literal), so the result is `false` for every user, channel and state. -/
def is_thinking (_st : TrackerState) (_uid _cid : Nat) : Bool :=
  false

/-- `DecisionEngine.should_wait_longer(message_content, is_burst)`: the body
is `return False` before any other statement (the former waiting heuristics
are dead code inside a string literal). -/
def should_wait_longer (_message_content : String) (_is_burst : Bool) : Bool :=
  false

/-! ### The external oracle boundary

Every oracle round trip in the source is a `requests.post` inside
`try/except`, followed by a `status_code == 200` test and extraction of
`data["choices"][0]["message"]["content"]`.  The outcome of that whole
transport step is modelled as `OracleOutcome`.  The subsequent
`json.loads` of the brace-delimited substring of the content text is the
stdlib JSON decoder; it is modelled as an explicit parsing parameter whose
result distinguishes the same three cases the source distinguishes. -/

/-- Result of one `requests.post` round trip to the oracle.  `requestError`
is any raised exception (connection error, timeout, or a body that fails
`response.json()`); `response status choice` is an HTTP reply with the given
status code and the content of `choices[0].message.content` when the
`choices` array is present and non-empty. -/
inductive OracleOutcome where
  | requestError (msg : String)
  | response (status : Nat) (choice : Option String)
  deriving Repr, DecidableEq

/-- Result of the brace-scan plus `json.loads` step of
`DecisionEngine._ask_ai`: `noJson` when no `{`/`}` delimiters are found (the
guard `start != -1 and end != -1` fails, so the `try` body falls through
without raising); `parseFail` when `json.loads`, or the `.get` calls on a
non-dict result, raise; `ok sr reason` when a JSON object parses, with its
optional `should_respond` and `reason` fields. -/
inductive EngParse where
  | noJson
  | parseFail
  | ok (sr : Option Bool) (reason : Option String)
  deriving Repr, DecidableEq

/-- Same boundary for `MessageTracker._ask_ai_about_patience`, whose JSON
object carries a single optional `wait` field. -/
inductive PatParse where
  | noJson
  | parseFail
  | ok (wait : Option Bool)
  deriving Repr, DecidableEq

/-- `MessageTracker._ask_ai_about_patience(messages)`.  `apiKey` is the truth
of `self.api_key`; `parse` is the `json.loads` boundary applied to the raw
choice text.  On a parse failure the source falls into the bare `except:` and
returns `True` exactly when the raw reply contains both `"wait"` and
`"true"` (case-insensitively); every other failure path returns `False`. -/
def ask_ai_about_patience (messages : List Rec) (apiKey : Bool)
    (oracle : OracleOutcome) (parse : String → PatParse) : Bool :=
  if !apiKey || messages.isEmpty then false
  else
    match oracle with
    | .requestError _ => false
    | .response status choice =>
      if status = 200 then
        match choice with
        | some s =>
          match parse s with
          | .ok w => w.getD false
          | .parseFail =>
            containsSub (pyLower s) "wait" && containsSub (pyLower s) "true"
          | .noJson => false
        | none => false
      else false

/-- `MessageTracker.should_wait_for_more_context(user_id, channel_id)`:
`False` when the key is not in `self.messages` or there is no API key,
otherwise the patience oracle on the last three records of the bucket. -/
def should_wait_for_more_context (st : TrackerState) (apiKey : Bool)
    (uid cid : Nat) (oracle : OracleOutcome) (parse : String → PatParse) :
    Bool :=
  match alistGet st.messages (uid, cid) with
  | none => false
  | some msgs =>
    if !apiKey then false
    else
      let recent := if msgs.length ≥ 3 then pySliceLast 3 msgs else msgs
      ask_ai_about_patience recent apiKey oracle parse

/-! ### DecisionEngine.should_respond (`decision_engine.py`)

The embedding covers guild messages (`message.guild` present): for a message
without a guild the source leaves `bot_id` unbound and raises `NameError`
when building `mention_pattern`, so there is no value to model.  `message`
metadata is collected in `MsgIn`; the engine's `recent_warnings` entry for
the author (if any) is passed as `warn`; `now` is the `time.time()` read of
the warning check. -/

/-- A guild member as seen by the scans of `should_respond`. -/
structure Member where
  id : Nat
  displayName : String
  deriving Repr, DecidableEq

/-- The message metadata `should_respond` consumes. -/
structure MsgIn where
  content : String
  mentionIds : List Nat
  hasReference : Bool
  members : List Member
  botId : Option Nat
  deriving Repr, DecidableEq

/-- One `recent_warnings` entry: `{timestamp, duration, rule}`. -/
structure WarnData where
  timestamp : ℚ
  duration : ℚ
  rule : String
  deriving Repr, DecidableEq

/-- The recently-warned topic check at the top of `should_respond`: active
warning, message not about the warning itself, and sharing one of the first
three words of the violated rule. -/
def warningTopicBlock (w : WarnData) (now : ℚ) (content : String) : Bool :=
  if now - w.timestamp < w.duration then
    let lowered := pyLower content
    let aboutWarning :=
      ["warning", "rule", "sorry", "apologize", "timeout", "mute"].any
        (fun t => containsSub lowered t)
    let ruleTerms := (pysplit (pyLower w.rule)).take 3
    !aboutWarning && ruleTerms.any (fun t => containsSub lowered t)
  else false

/-- Lifts `warningTopicBlock` over the optional `recent_warnings` entry. -/
def warnBlocked (warn : Option WarnData) (now : ℚ) (content : String) : Bool :=
  match warn with
  | some w => warningTopicBlock w now content
  | none => false

/-- First member scan of `should_respond`: a member who is `@`-mentioned and
is not the bot.  Returns the display name of the first match. -/
def mentionTargetScan (m : MsgIn) : Option String :=
  (m.members.find? (fun mem =>
    m.mentionIds.contains mem.id &&
      (m.botId.isNone || !(m.botId = some mem.id)))).map (fun mem => mem.displayName)

/-- Second member scan of `should_respond`: a non-bot member addressed by
name in the lowered content (`name ` / `name,` start, `@name`, `, name`,
`hey name`, `hi name`). -/
def nameTargetScan (m : MsgIn) : Option String :=
  (m.members.find? (fun mem =>
    !(m.botId = some mem.id) &&
      (let name := pyLower mem.displayName
       let cl := pyLower m.content
       pyStartsWith cl (name ++ " ") || pyStartsWith cl (name ++ ",") ||
         containsSub cl ("@" ++ name) || containsSub cl (", " ++ name) ||
         containsSub cl ("hey " ++ name) ||
         containsSub cl ("hi " ++ name)))).map (fun mem => mem.displayName)

/-- The `bot_mentioned` computation of `should_respond`: `@name`, the raw
user-id mention pattern, or the content starting with the configured name. -/
def botMentionedCalc (m : MsgIn) (botName : String) : Bool :=
  let cl := pyLower m.content
  containsSub cl ("@" ++ botName) ||
    (match m.botId with
     | some b => containsSub cl ("<@" ++ toString b ++ ">")
     | none => false) ||
    pyStartsWith cl (botName ++ " ") || pyStartsWith cl (botName ++ ",")

/-- The `is_short_followup` computation: a short question while the latest
channel records include a message stored under the bot's stringified id. -/
def isShortFollowup (m : MsgIn) (st : TrackerState) (channel_id : Nat) :
    Bool :=
  let cl := pyLower m.content
  if (pysplit cl).length ≤ 5 ∧ channel_id ≠ 0 then
    if containsSub cl "?" then
      let recent := get_recent_channel_messages st channel_id 3
      if recent.length ≥ 1 then
        match m.botId with
        | some b => recent.any (fun r => r.user_id = toString b)
        | none => false
      else false
    else false
  else false

/-- The lexical-overlap follow-up check: a question of at most 15 words that
shares a word longer than 3 characters with a recent channel record stored
under the bot's stringified id. -/
def overlapFollowup (m : MsgIn) (st : TrackerState) (channel_id : Nat) :
    Bool :=
  let cl := pyLower m.content
  if channel_id ≠ 0 ∧ containsSub cl "?" ∧ (pysplit cl).length ≤ 15 then
    let recent : List Rec := get_recent_channel_messages st channel_id 10
    let qwords : List String :=
      ((pysplit cl).filter (fun w => 3 < w.length)).map pyLower
    let solMsgs : List String :=
      match m.botId with
      | some b =>
        (recent.filter (fun r => r.user_id = toString b)).map
          (fun r => pyLower r.content)
      | none => []
    solMsgs.any (fun sm =>
      let swords : List String :=
        ((pysplit sm).filter (fun w => 3 < w.length)).map pyLower
      (qwords.any (fun w => swords.contains w)) && !qwords.isEmpty)
  else false

/-- `DecisionEngine._ask_ai(message_content, context)`: the oracle round trip
of the engagement decision.  A raised request is caught and answered
`(False, "Error in AI decision: ...")`; a non-200 status, a missing choice,
or a reply without JSON delimiters falls through to
`(False, "Failed to get clear AI decision, defaulting to not responding")`;
a JSON parse failure first tries the plain-text extraction of
`should_respond`/`true`/`false`. -/
def ask_ai (oracle : OracleOutcome) (parse : String → EngParse) :
    Bool × String :=
  match oracle with
  | .requestError e => (false, "Error in AI decision: " ++ e)
  | .response status choice =>
    if status = 200 then
      match choice with
      | some s =>
        match parse s with
        | .ok sr reason => (sr.getD false, reason.getD "Unknown reason")
        | .parseFail =>
          let l := pyLower s
          if containsSub l "should_respond" && containsSub l "true" then
            (true, "Simple text extraction: should respond")
          else if containsSub l "should_respond" && containsSub l "false" then
            (false, "Simple text extraction: should not respond")
          else
            (false, "Failed to get clear AI decision, defaulting to not responding")
        | .noJson =>
          (false, "Failed to get clear AI decision, defaulting to not responding")
      | none =>
        (false, "Failed to get clear AI decision, defaulting to not responding")
    else
      (false, "Failed to get clear AI decision, defaulting to not responding")

/-- The deterministic early-return phase of `should_respond`, in source
order: empty content; recently-warned-topic block; the reply short-circuit
(`replying_to_bot` is the constant `False` in this method — the fetch is
deferred to `bot.py` — and `reply_target_name` is never assigned, so the
generic reason text is always the one returned); the addressed-other-user
short-circuit; the two follow-up fast paths.  `none` means control reaches
the oracle delegation. -/
def deterministicPhase (m : MsgIn) (warn : Option WarnData) (now : ℚ)
    (st : TrackerState) (channel_id : Nat) (botName : String) :
    Option (Bool × String) :=
  if pyStrip m.content = "" then some (false, "Empty message")
  else if warnBlocked warn now m.content then
    some (false, "User was recently warned about similar topic")
  else
    let target := ((mentionTargetScan m).orElse (fun _ => nameTargetScan m))
    let botM := botMentionedCalc m botName
    if m.hasReference && !botM then
      some (false, "Message is replying to someone else, not to Sol")
    else
      match target with
      | some name =>
        if !botM then
          some (false, "Message appears to be addressed to " ++ name ++ ", not Sol")
        else
          if isShortFollowup m st channel_id then
            some (true, "Short follow-up question to Sol's previous message")
          else if overlapFollowup m st channel_id then
            some (true, "Question about something Sol previously mentioned")
          else none
      | none =>
        if isShortFollowup m st channel_id then
          some (true, "Short follow-up question to Sol's previous message")
        else if overlapFollowup m st channel_id then
          some (true, "Question about something Sol previously mentioned")
        else none

/-- `DecisionEngine.should_respond`: deterministic phase first; if it does
not decide, delegate to the oracle when an API key is configured, else
default to responding. -/
def should_respond (m : MsgIn) (warn : Option WarnData) (now : ℚ)
    (st : TrackerState) (channel_id : Nat) (botName : String)
    (apiKey : Bool) (oracle : OracleOutcome) (parse : String → EngParse) :
    Bool × String :=
  match deterministicPhase m warn now st channel_id botName with
  | some r => r
  | none =>
    if apiKey then ask_ai oracle parse
    else (true, "no_api_key_default_response")

/-! ### DecisionEngine.decide_response_length (`decision_engine.py`)

The three float chances are modelled exactly as rationals; the single
`random.random()` roll becomes an explicit parameter in `[0, 1)`. -/

/-- The triple `(short_chance, medium_chance, long_chance)`. -/
structure Chances where
  s : ℚ
  m : ℚ
  l : ℚ
  deriving Repr, DecidableEq

/-- `short_chance = 0.75 - formality * 0.02`, the base probability of a
short response before any message-type or length adjustment. -/
def baseShortChance (formality : Nat) : ℚ :=
  3 / 4 - (formality : ℚ) * (1 / 50)

/-- `long_chance = 0.05 + formality * 0.01`. -/
def baseLongChance (formality : Nat) : ℚ :=
  1 / 20 + (formality : ℚ) * (1 / 100)

/-- The initial chance triple, with
`medium_chance = 1.0 - short_chance - long_chance`. -/
def initialChances (formality : Nat) : Chances :=
  ⟨baseShortChance formality,
   1 - baseShortChance formality - baseLongChance formality,
   baseLongChance formality⟩

/-- The `message_type` adjustments (`if/elif` chain on the type string;
`medium_chance` is only reassigned for `"casual"` and `"empathetic"`). -/
def typeAdjust (message_type : String) (c : Chances) : Chances :=
  if message_type = "answer" then ⟨c.s * (4 / 5), c.m, c.l * (6 / 5)⟩
  else if message_type = "greeting" then ⟨19 / 20, c.m, 0⟩
  else if message_type = "helpful" then ⟨c.s * (7 / 10), c.m, c.l * (3 / 2)⟩
  else if message_type = "opinion" then ⟨c.s * (4 / 5), c.m, c.l * (6 / 5)⟩
  else if message_type = "casual" then ⟨9 / 10, 9 / 100, 1 / 100⟩
  else if message_type = "empathetic" then ⟨4 / 5, 9 / 50, 1 / 50⟩
  else c

/-- The short-incoming-message adjustment: `short_chance += 0.2`, and if it
then exceeds `1.0`, reset the triple to `(0.95, 0.05, 0.0)`. -/
def shortMsgAdjust (c : Chances) : Chances :=
  let s := c.s + 1 / 5
  if 1 < s then ⟨19 / 20, 1 / 20, 0⟩ else ⟨s, c.m, c.l⟩

/-- Normalize the triple by its total, but only when the total exceeds 1. -/
def normalizeChances (c : Chances) : Chances :=
  let t := c.s + c.m + c.l
  if 1 < t then ⟨c.s / t, c.m / t, c.l / t⟩ else c

/-- The final chance triple of `decide_response_length`: type adjustments,
then the `len(message_content.split()) <= 10` bump, then normalization. -/
def finalChances (message_type message_content : String) (formality : Nat) :
    Chances :=
  let c0 := typeAdjust message_type (initialChances formality)
  let c1 := if (pysplit message_content).length ≤ 10 then shortMsgAdjust c0 else c0
  normalizeChances c1

/-- `DecisionEngine.decide_response_length`, with the `random.random()` roll
as an explicit parameter. -/
def decide_response_length (message_type message_content : String)
    (formality : Nat) (roll : ℚ) : String :=
  let c := finalChances message_type message_content formality
  if roll < c.s then "short"
  else if roll < c.s + c.m then "medium"
  else "long"

/-! ### Moderation ledger and escalation (`decision_engine.py`, `bot.py`) -/

/-- One entry of `DecisionEngine.violation_history[user_id]`. -/
structure Violation where
  timestamp : ℚ
  channel_id : Nat
  rule_violated : String
  severity : String
  deriving Repr, DecidableEq

/-- `DecisionEngine.get_violation_count(user_id, hours)` over the author's
history list: entries with `timestamp >= time.time() - hours*3600`. -/
def get_violation_count (history : List Violation) (now : ℚ) (hours : Nat) :
    Nat :=
  (history.filter (fun v => now - (hours : ℚ) * 3600 ≤ v.timestamp)).length

/-- The auto-timeout decision of `bot.py` (`on_message`, moderation branch):
a timeout fires only when `auto_timeout` is set and
`violation_count >= warning_threshold`, with duration
`timeout_minutes * (1 + min(excess_violations, 5))` minutes. -/
def timeoutDecision (auto_timeout : Bool) (violation_count warning_threshold
    timeout_minutes : Nat) : Option Nat :=
  if auto_timeout ∧ warning_threshold ≤ violation_count then
    some (timeout_minutes * (1 + min (violation_count - warning_threshold) 5))
  else none

/-! ### The on_message engagement pipeline (`bot.py`)

`on_message_outcome` models the control flow of the handler from its entry
to the point where a response is generated, for a fixed inbound message.
Results of the network-dependent sub-calls (`check_moderation`,
`should_wait_for_more_context`, `should_respond`, the reply fetch, and the
random warn-suppression roll) enter as explicit inputs; the deterministic
`should_wait_longer` is wired to its definition above. -/

/-- The inputs `on_message` branches on. -/
structure OnMsgIn where
  /-- `message.author == bot.user`. -/
  authorIsBot : Bool
  /-- `message.content.lower().startswith(".sol ")`. -/
  dotSolCommand : Bool
  /-- `channel_manager.is_channel_active(message.channel.id)`. -/
  channelActive : Bool
  /-- verdict of `decision_engine.check_moderation`. -/
  violates : Bool
  /-- the `random.random() < 0.5` roll used when `violation_count > 2`. -/
  warnRoll : Bool
  /-- the warning `try` block reached its `return` (no send/delete raise). -/
  warnDeliveryOk : Bool
  /-- `BOT_CONFIG['moderation']['auto_timeout']`. -/
  autoTimeout : Bool
  warningThreshold : Nat
  timeoutMinutes : Nat
  /-- `decision_engine.get_violation_count(author, hours=24)`. -/
  violationCount : Nat
  /-- `bot.user in message.mentions`. -/
  directMention : Bool
  isDm : Bool
  /-- `f"<@{bot.user.id}>" in message.content`. -/
  userIdMention : Bool
  /-- a mentioned role is held by the bot. -/
  roleMentionHit : Bool
  hasReference : Bool
  /-- the `fetch_message` of the reply target succeeded. -/
  replyFetchOk : Bool
  repliedAuthorIsBot : Bool
  /-- `decision_engine.recent_warnings` entry for the author. -/
  warn : Option WarnData
  now : ℚ
  /-- return value of `message_tracker.add_message`. -/
  isBurst : Bool
  /-- `message_tracker.should_wait_for_more_context(...)`. -/
  patienceWait : Bool
  content : String
  /-- `decision_engine.should_respond(...)[0]`. -/
  engineSays : Bool
  /-- the second `should_wait_for_more_context` call inside the burst wait. -/
  stillTyping : Bool
  deriving Repr, DecidableEq

/-- Where the handler stops for this message. -/
inductive MsgOutcome where
  | ignoredSelf
  | handledCommand
  | inactiveChannel
  /-- warned (and possibly timed out for the returned duration); the handler
  returns before any engagement. -/
  | moderated (timeout : Option Nat)
  | cooldownSuppressed
  | waitingForContext
  | declined
  | burstDeferred
  | engaged
  deriving Repr, DecidableEq

/-- The name-prefix check of `on_message`
(`message.content.lower().startswith("sol ")` or `"@sol "`). -/
def namePrefixSol (content : String) : Bool :=
  pyStartsWith (pyLower content) "sol " || pyStartsWith (pyLower content) "@sol "

/-- The `on_message` pipeline of `bot.py`. -/
def on_message_outcome (i : OnMsgIn) : MsgOutcome :=
  if i.authorIsBot then .ignoredSelf
  else if i.dotSolCommand then .handledCommand
  else if !i.channelActive then .inactiveChannel
  else
    -- moderation: `should_warn` is unconditionally true for counts <= 2;
    -- when the warning branch completes its `try` block, the handler returns
    let shouldWarn := if 2 < i.violationCount then i.warnRoll else true
    if i.violates && shouldWarn && i.warnDeliveryOk then
      .moderated
        (timeoutDecision i.autoTimeout i.violationCount i.warningThreshold
          i.timeoutMinutes)
    else
      let replyingToBot := i.hasReference && i.replyFetchOk && i.repliedAuthorIsBot
      let isMentioned :=
        i.directMention || i.userIdMention || i.roleMentionHit ||
          namePrefixSol i.content || replyingToBot
      let recentlyWarnedActive :=
        match i.warn with
        | some w => decide (i.now - w.timestamp < w.duration)
        | none => false
      if recentlyWarnedActive && !(isMentioned || i.isDm || replyingToBot) then
        .cooldownSuppressed
      else if (i.patienceWait || should_wait_longer i.content i.isBurst)
          && !isMentioned then
        .waitingForContext
      else if !(i.engineSays || (isMentioned || i.isDm || replyingToBot)) then
        .declined
      else if i.isBurst && !isMentioned && i.stillTyping then
        .burstDeferred
      else
        .engaged

/-! ### Traces of tracker mutations

For the invariant claims the tracker is driven by an arbitrary sequence of
`add_message` / `add_bot_response` calls, each carrying the `time.time()`
values of its clock reads. -/

/-- One tracker mutation: an author message (with its append-time and
prune-time clock reads) or a bot response. -/
inductive TOp where
  | user (uid cid : Nat) (content : String) (t tp : ℚ)
  | bot (uid cid : Nat) (content : String) (t : ℚ)
  deriving Repr, DecidableEq

/-- Apply one mutation. -/
def applyOp (op : TOp) (st : TrackerState) : TrackerState :=
  match op with
  | .user uid cid content t tp => (add_message uid cid content t tp st).2
  | .bot uid cid content t => add_bot_response uid cid content t st

/-- Apply a sequence of mutations in order. -/
def applyTrace (ops : List TOp) (st : TrackerState) : TrackerState :=
  match ops with
  | [] => st
  | op :: rest => applyTrace rest (applyOp op st)

/-- A trace is chronological from clock `c`: each clock read is at least
every earlier one (`time.time()` is non-decreasing). -/
def chrono (c : ℚ) (ops : List TOp) : Bool :=
  match ops with
  | [] => true
  | .user _ _ _ t tp :: rest => c ≤ t && t ≤ tp && chrono tp rest
  | .bot _ _ _ t :: rest => c ≤ t && chrono t rest

/-- The clock at the end of a trace. -/
def chronoEnd (c : ℚ) : List TOp → ℚ
  | [] => c
  | .user _ _ _ _ tp :: rest => chronoEnd tp rest
  | .bot _ _ _ t :: rest => chronoEnd t rest

/-- The bucket of a key, as the Python `defaultdict` read would produce it. -/
def bucket (st : TrackerState) (k : BKey) : List Rec :=
  (alistGet st.messages k).getD []

/-- Timestamps of a bucket in list order. -/
def recTimes (l : List Rec) : List ℚ :=
  l.map (fun r => r.timestamp)

/-- The per-bucket invariant at clock `c`: bounded by the context window,
timestamps non-decreasing in list order, and all timestamps at most `c`. -/
def BucketOk (cw : Nat) (c : ℚ) (l : List Rec) : Prop :=
  l.length ≤ cw ∧ (recTimes l).Pairwise (· ≤ ·) ∧ ∀ r ∈ l, r.timestamp ≤ c

/-- The whole-state invariant at clock `c`. -/
def StateOk (c : ℚ) (st : TrackerState) : Prop :=
  ∀ k, BucketOk st.context_window c (bucket st k)

/-! ### Association-list lemmas -/

theorem alistGet_set_self (l : List (BKey × α)) (k : BKey) (v : α) :
    alistGet (alistSet l k v) k = some v := by
  induction l with
  | nil => simp [alistSet, alistGet]
  | cons p rest ih =>
    obtain ⟨k', w⟩ := p
    by_cases h : k' = k
    · simp [alistSet, alistGet, h]
    · simp [alistSet, alistGet, h, ih]

theorem alistGet_set_ne (l : List (BKey × α)) (k k' : BKey) (v : α)
    (h : k' ≠ k) : alistGet (alistSet l k v) k' = alistGet l k' := by
  induction l with
  | nil => simp [alistSet, alistGet, Ne.symm h]
  | cons p rest ih =>
    obtain ⟨k₀, w⟩ := p
    by_cases h0 : k₀ = k
    · subst h0
      simp [alistSet, alistGet, Ne.symm h]
    · by_cases h1 : k₀ = k'
      · subst h1
        simp [alistSet, alistGet, h]
      · simp [alistSet, alistGet, h0, h1, ih]

theorem bucket_applyOp_cw (op : TOp) (st : TrackerState) :
    (applyOp op st).context_window = st.context_window := by
  cases op <;> rfl

theorem applyTrace_cw (ops : List TOp) (st : TrackerState) :
    (applyTrace ops st).context_window = st.context_window := by
  induction ops generalizing st with
  | nil => rfl
  | cons op rest ih => simp [applyTrace, ih, bucket_applyOp_cw]

/-! ### Preservation of the bucket invariant -/

theorem pySliceLast_sublist (n : Nat) (l : List α) :
    (pySliceLast n l).Sublist l := by
  unfold pySliceLast
  split
  · exact List.Sublist.refl l
  · exact List.drop_sublist _ l

theorem trimToWindow_sublist (cw : Nat) (l : List Rec) :
    (trimToWindow cw l).Sublist l := by
  unfold trimToWindow
  split
  · exact pySliceLast_sublist cw l
  · exact List.Sublist.refl l

theorem pruneFilter_sublist (mah : Nat) (tp : ℚ) (l : List Rec) :
    (pruneFilter mah tp l).Sublist l := by
  unfold pruneFilter
  split
  · exact List.filter_sublist l
  · exact List.Sublist.refl l

theorem length_trimToWindow_le (cw : Nat) (l : List Rec) (hcw : 1 ≤ cw) :
    (trimToWindow cw l).length ≤ cw := by
  unfold trimToWindow
  split
  · next h =>
    unfold pySliceLast
    rw [if_neg (by omega)]
    rw [List.length_drop]
    omega
  · next h => omega

theorem recTimes_sublist {l₁ l₂ : List Rec} (h : l₁.Sublist l₂) :
    (recTimes l₁).Sublist (recTimes l₂) := by
  simpa [recTimes] using h.map (fun r => r.timestamp)

/-- The invariant is monotone in the clock. -/
theorem BucketOk.mono {cw : Nat} {c c' : ℚ} {l : List Rec} (hcc : c ≤ c')
    (h : BucketOk cw c l) : BucketOk cw c' l :=
  ⟨h.1, h.2.1, fun r hr => le_trans (h.2.2 r hr) hcc⟩

/-- Appending a record at the current clock, filtering by age and trimming
to the window preserves the bucket invariant and advances its clock. -/
theorem BucketOk.step {cw mah : Nat} {c t tp : ℚ} {l : List Rec} {r : Rec}
    (hcw : 1 ≤ cw) (hct : c ≤ t) (htp : t ≤ tp) (hr : r.timestamp = t)
    (h : BucketOk cw c l) :
    BucketOk cw tp (trimToWindow cw (pruneFilter mah tp (l ++ [r]))) := by
  obtain ⟨hlen, hsort, hbound⟩ := h
  have hsub : (trimToWindow cw (pruneFilter mah tp (l ++ [r]))).Sublist (l ++ [r]) :=
    (trimToWindow_sublist _ _).trans (pruneFilter_sublist _ _ _)
  refine ⟨length_trimToWindow_le cw _ hcw, ?_, ?_⟩
  · have happ : (recTimes (l ++ [r])).Pairwise (· ≤ ·) := by
      have : recTimes (l ++ [r]) = recTimes l ++ [r.timestamp] := by
        simp [recTimes]
      rw [this, List.pairwise_append]
      refine ⟨hsort, List.pairwise_singleton _ _, ?_⟩
      intro a ha b hb
      simp at hb
      subst hb
      rw [hr]
      obtain ⟨rec, hrec, hts⟩ := by simpa [recTimes] using ha
      exact le_trans (hts ▸ hbound rec hrec) hct
    exact happ.sublist (recTimes_sublist hsub)
  · intro x hx
    have hx' : x ∈ l ++ [r] := hsub.subset hx
    rcases List.mem_append.mp hx' with hxl | hxr
    · exact le_trans (hbound x hxl) (le_trans hct htp)
    · simp at hxr
      subst hxr
      rw [hr]
      exact htp

/-- One `add_message` call preserves the state invariant. -/
theorem StateOk.stepUser {c t tp : ℚ} {st : TrackerState}
    (hcw : 1 ≤ st.context_window) (hct : c ≤ t) (htp : t ≤ tp)
    (h : StateOk c st) (uid cid : Nat) (content : String) :
    StateOk tp (add_message uid cid content t tp st).2 := by
  intro k
  by_cases hk : k = (uid, cid)
  · subst hk
    have hbk : bucket (add_message uid cid content t tp st).2 (uid, cid) =
        trimToWindow st.context_window
          (pruneFilter st.max_age_hours tp
            (bucket st (uid, cid) ++ [⟨t, content, "user", toString uid⟩])) := by
      simp [add_message, bucket, alistGet_set_self]
    rw [hbk, show (add_message uid cid content t tp st).2.context_window =
        st.context_window from rfl]
    exact BucketOk.step hcw hct htp rfl (h (uid, cid))
  · have hbk : bucket (add_message uid cid content t tp st).2 k = bucket st k := by
      simp [add_message, bucket, alistGet_set_ne _ _ _ _ hk]
    rw [hbk, show (add_message uid cid content t tp st).2.context_window =
        st.context_window from rfl]
    exact (h k).mono (le_trans hct htp)

/-- One `add_bot_response` call preserves the state invariant. -/
theorem StateOk.stepBot {c t : ℚ} {st : TrackerState}
    (hcw : 1 ≤ st.context_window) (hct : c ≤ t)
    (h : StateOk c st) (uid cid : Nat) (content : String) :
    StateOk t (add_bot_response uid cid content t st) := by
  intro k
  by_cases hk : k = (uid, cid)
  · subst hk
    have hbk : bucket (add_bot_response uid cid content t st) (uid, cid) =
        trimToWindow st.context_window
          (bucket st (uid, cid) ++ [⟨t, content, "assistant", "bot"⟩]) := by
      simp [add_bot_response, bucket, alistGet_set_self]
    rw [hbk, show (add_bot_response uid cid content t st).context_window =
        st.context_window from rfl]
    have hstep := @BucketOk.step st.context_window 0 c t t (bucket st (uid, cid))
      ⟨t, content, "assistant", "bot"⟩ hcw hct le_rfl rfl (h (uid, cid))
    simpa [pruneFilter] using hstep
  · have hbk : bucket (add_bot_response uid cid content t st) k = bucket st k := by
      simp [add_bot_response, bucket, alistGet_set_ne _ _ _ _ hk]
    rw [hbk, show (add_bot_response uid cid content t st).context_window =
        st.context_window from rfl]
    exact (h k).mono hct

/-- A chronological trace preserves the state invariant. -/
theorem StateOk.applyTrace (ops : List TOp) : ∀ (c : ℚ) (st : TrackerState),
    1 ≤ st.context_window → chrono c ops = true → StateOk c st →
    StateOk (chronoEnd c ops) (Sol.applyTrace ops st) := by
  induction ops with
  | nil =>
    intro c st _ _ h
    exact h
  | cons op rest ih =>
    intro c st hcw hch h
    cases op with
    | user uid cid content t tp =>
      simp only [chrono, Bool.and_eq_true, decide_eq_true_eq] at hch
      obtain ⟨⟨hct, htp⟩, hrest⟩ := hch
      have h1 : StateOk tp (add_message uid cid content t tp st).2 :=
        StateOk.stepUser hcw hct htp h uid cid content
      have hcw1 : 1 ≤ (add_message uid cid content t tp st).2.context_window := hcw
      exact ih tp _ hcw1 hrest h1
    | bot uid cid content t =>
      simp only [chrono, Bool.and_eq_true, decide_eq_true_eq] at hch
      obtain ⟨hct, hrest⟩ := hch
      have h1 : StateOk t (add_bot_response uid cid content t st) :=
        StateOk.stepBot hcw hct h uid cid content
      have hcw1 : 1 ≤ (add_bot_response uid cid content t st).context_window := hcw
      exact ih t _ hcw1 hrest h1

/-- The empty tracker satisfies the invariant at any clock. -/
theorem StateOk.init (cw mah : Nat) (c : ℚ) : StateOk c (initTracker cw mah) := by
  intro k
  refine ⟨?_, ?_, ?_⟩ <;> simp [bucket, initTracker, alistGet, recTimes, BucketOk]

/-! ### Lemmas about `get_context` -/

theorem alistGet_append_single_none {l : List (BKey × α)} {k : BKey}
    (h : alistGet l k = none) (v : α) :
    alistGet (l ++ [(k, v)]) k = some v := by
  induction l with
  | nil => simp [alistGet]
  | cons p rest ih =>
    obtain ⟨k0, w⟩ := p
    by_cases hk : k0 = k
    · simp [alistGet, hk] at h
    · simp only [alistGet, List.cons_append, if_neg hk] at h ⊢
      exact ih h

theorem prune_user_messages_cw (uid cid : Nat) (tp : ℚ) (st : TrackerState) :
    (prune_user_messages uid cid tp st).context_window = st.context_window := by
  unfold prune_user_messages
  split <;> rfl

theorem bucket_prune_len (uid cid : Nat) (tp : ℚ) (st : TrackerState) :
    (bucket (prune_user_messages uid cid tp st) (uid, cid)).length ≤
      (bucket st (uid, cid)).length := by
  unfold prune_user_messages
  split
  · exact le_refl _
  · simp only [bucket, alistGet_set_self, Option.getD_some]
    exact List.length_filter_le _ _

/-- The two trim branches of `get_context` agree when the bucket already
fits in a `context_window` that is at most 100. -/
theorem included_eq (cw : Nat) (msgs : List Rec) (h100 : cw ≤ 100)
    (hlen : msgs.length ≤ cw) :
    (if 100 < msgs.length then pySliceLast 100 msgs else msgs) =
    (if cw < msgs.length then pySliceLast cw msgs else msgs) := by
  rw [if_neg (by omega), if_neg (by omega)]

/-- When a bucket is within a `context_window` that is itself at most 100,
the two `get_context` variants return the same sequence. -/
theorem get_context_extended_eq (st : TrackerState) (uid cid : Nat) (tp : ℚ)
    (h100 : st.context_window ≤ 100)
    (hlen : (bucket st (uid, cid)).length ≤ st.context_window) :
    (get_context uid cid tp true st).1 = (get_context uid cid tp false st).1 := by
  unfold get_context
  by_cases hmah : 0 < st.max_age_hours
  · simp only [if_pos hmah, Bool.not_true, Bool.not_false]
    have hcw1 : (prune_user_messages uid cid tp st).context_window =
        st.context_window := prune_user_messages_cw uid cid tp st
    have hlen1 : ((alistGet (prune_user_messages uid cid tp st).messages
        (uid, cid)).getD []).length ≤ st.context_window :=
      le_trans (bucket_prune_len uid cid tp st) hlen
    by_cases hhas : alistHas (prune_user_messages uid cid tp st).messages (uid, cid)
    · simp only [if_pos hhas, if_neg (by simp : ¬false = true),
        if_pos (by simp : true = true)]
      rw [hcw1]
      exact congrArg _ (included_eq st.context_window _ h100 hlen1)
    · simp only [if_neg hhas, if_neg (by simp : ¬false = true),
        if_pos (by simp : true = true)]
      have hget : alistGet (prune_user_messages uid cid tp st).messages (uid, cid)
          = none := by
        unfold alistHas at hhas
        exact Option.not_isSome_iff_eq_none.mp (by simpa using hhas)
      have h0 : alistGet ((prune_user_messages uid cid tp st).messages ++
          [((uid, cid), [])]) (uid, cid) = some [] :=
        alistGet_append_single_none hget []
      simp [h0]
  · simp only [if_neg hmah, Bool.not_true, Bool.not_false]
    have hlen1 : ((alistGet st.messages (uid, cid)).getD []).length ≤
        st.context_window := hlen
    by_cases hhas : alistHas st.messages (uid, cid)
    · simp only [if_pos hhas, if_neg (by simp : ¬false = true),
        if_pos (by simp : true = true)]
      exact congrArg _ (included_eq st.context_window _ h100 hlen1)
    · simp only [if_neg hhas, if_neg (by simp : ¬false = true),
        if_pos (by simp : true = true)]
      have hget : alistGet st.messages (uid, cid) = none := by
        unfold alistHas at hhas
        exact Option.not_isSome_iff_eq_none.mp (by simpa using hhas)
      have h0 : alistGet (st.messages ++ [((uid, cid), [])]) (uid, cid) = some [] :=
        alistGet_append_single_none hget []
      simp [h0]

/-! ## Claim theorems -/

/-- C10: `DecisionEngine.should_wait_longer` returns `false` for every
message content and burst flag, and `MessageTracker.is_thinking` returns
`false` for every user, channel and tracker state: both local burst-waiting
heuristics are unconditionally disabled. -/
theorem c10_wait_heuristics_disabled (content : String) (b : Bool)
    (st : TrackerState) (uid cid : Nat) :
    should_wait_longer content b = false ∧ is_thinking st uid cid = false :=
  ⟨rfl, rfl⟩

/-- C3: for two consecutive `add_message` calls on the same
`(author, channel)` key — from any starting state — the second call returns
`is_burst = true` exactly when the elapsed time since the first call is
strictly below 15 seconds, and `false` at a gap of 15 seconds or more. -/
theorem c3_burst_iff_gap_below_15 (uid cid : Nat) (st : TrackerState)
    (m1 m2 : String) (t1 tp1 t2 tp2 : ℚ) :
    (add_message uid cid m2 t2 tp2 (add_message uid cid m1 t1 tp1 st).2).1 = true
      ↔ t2 - t1 < 15 := by
  simp only [add_message]
  rw [alistGet_set_self]
  by_cases h : t2 - t1 < 15 <;> simp [h]

/-- C2: along every chronological trace of `add_message` and
`add_bot_response` calls from a fresh tracker with a positive context window
(the configuration surface constrains `context_window` to 5–50), every
`(author, channel)` bucket holds at most `context_window` records and its
stored timestamps are non-decreasing in list order.  Quantifying over all
traces covers the state after every intermediate call, since every prefix of
a chronological trace is itself a chronological trace. -/
theorem c2_bucket_bounded_and_ordered (ops : List TOp) (c0 : ℚ)
    (cw mah : Nat) (hcw : 1 ≤ cw) (hch : chrono c0 ops = true) (k : BKey) :
    (bucket (applyTrace ops (initTracker cw mah)) k).length ≤ cw ∧
    (recTimes (bucket (applyTrace ops (initTracker cw mah)) k)).Pairwise (· ≤ ·) := by
  have h := StateOk.applyTrace ops c0 (initTracker cw mah) hcw hch
    (StateOk.init cw mah c0)
  have hk := h k
  rw [show (applyTrace ops (initTracker cw mah)).context_window = cw from
    applyTrace_cw ops (initTracker cw mah)] at hk
  exact ⟨hk.1, hk.2.1⟩

/-- Witness for C2 at a concrete three-call trace with `context_window = 2`. -/
theorem c2_bucket_bounded_and_ordered_witness :
    (1 ≤ 2 ∧
      chrono 0 [TOp.user 1 2 "hey" 0 0, TOp.user 1 2 "also" 3 3,
        TOp.bot 1 2 "hi" 4] = true) ∧
    ((bucket (applyTrace [TOp.user 1 2 "hey" 0 0, TOp.user 1 2 "also" 3 3,
        TOp.bot 1 2 "hi" 4] (initTracker 2 0)) (1, 2)).length ≤ 2 ∧
      (recTimes (bucket (applyTrace [TOp.user 1 2 "hey" 0 0,
        TOp.user 1 2 "also" 3 3, TOp.bot 1 2 "hi" 4]
        (initTracker 2 0)) (1, 2))).Pairwise (· ≤ ·)) :=
  ⟨⟨by norm_num, by decide⟩,
   c2_bucket_bounded_and_ordered
     [TOp.user 1 2 "hey" 0 0, TOp.user 1 2 "also" 3 3, TOp.bot 1 2 "hi" 4]
     0 2 0 (by norm_num) (by decide) (1, 2)⟩

/-- C4: the auto-timeout of `on_message` fires only when `auto_timeout` is
enabled and the 24-hour violation count reaches `warning_threshold`; its
duration is `timeout_minutes * (1 + min(excess, 5))`, so the multiplier
never exceeds 6; at `warning_threshold = 3` and `violation_count = 5` the
duration is `3 * timeout_minutes`. -/
theorem c4_timeout_escalation (auto : Bool) (vc thr tm : Nat) :
    (∀ d, timeoutDecision auto vc thr tm = some d →
      auto = true ∧ thr ≤ vc ∧ d = tm * (1 + min (vc - thr) 5) ∧ d ≤ 6 * tm) ∧
    timeoutDecision true 5 3 tm = some (3 * tm) := by
  constructor
  · intro d hd
    unfold timeoutDecision at hd
    split at hd
    · next h =>
      obtain ⟨ha, hvc⟩ := h
      have hd' : tm * (1 + min (vc - thr) 5) = d := by
        injection hd
      refine ⟨ha, hvc, hd'.symm, ?_⟩
      rw [← hd']
      have hmin : 1 + min (vc - thr) 5 ≤ 6 := by
        have := min_le_right (vc - thr) 5
        omega
      calc tm * (1 + min (vc - thr) 5) ≤ tm * 6 := Nat.mul_le_mul_left tm hmin
        _ = 6 * tm := Nat.mul_comm tm 6
    · exact absurd hd (by simp)
  · simp [timeoutDecision]
    omega

/-- Witness for C4: the theorem applied at concrete counts. -/
theorem c4_timeout_escalation_witness :
    (true = true ∧ 3 ≤ 7 ∧ 10 = 2 * (1 + min (7 - 3) 5) ∧ 10 ≤ 6 * 2) ∧
    timeoutDecision true 5 3 4 = some 12 :=
  ⟨(c4_timeout_escalation true 7 3 2).1 10 (by decide),
   (c4_timeout_escalation true 5 3 4).2⟩

/-- C6: while a `recent_warnings` cooldown for the author is active, a
message that is not directly addressed (no mention in any of its forms, not
a DM, not a reply to the agent) is never engaged with, whatever the other
inputs of the handler; and a non-violating message that explicitly mentions
the agent is engaged with regardless of the active cooldown. -/
theorem c6_cooldown_gate (i : OnMsgIn) (w : WarnData)
    (hw : i.warn = some w) (hactive : i.now - w.timestamp < w.duration) :
    ((i.directMention = false ∧ i.isDm = false ∧ i.userIdMention = false ∧
      i.roleMentionHit = false ∧ namePrefixSol i.content = false ∧
      (i.hasReference && i.replyFetchOk && i.repliedAuthorIsBot) = false) →
        on_message_outcome i ≠ MsgOutcome.engaged) ∧
    (i.directMention = true → i.authorIsBot = false → i.dotSolCommand = false →
      i.channelActive = true → i.violates = false →
      on_message_outcome i = MsgOutcome.engaged) := by
  constructor
  · rintro ⟨h1, h2, h3, h4, h5, h6⟩
    simp only [on_message_outcome, hw, h1, h2, h3, h4, h5]
    split_ifs with ha hb hc hd he <;> simp_all
  · intro hm ha hb hc hv
    simp [on_message_outcome, hm, ha, hb, hc, hv]

/-- C9 (amended): for every tracker state reachable by a chronological
sequence of `add_message` / `add_bot_response` calls with
`1 ≤ context_window ≤ 100`, the `extended = true` and `extended = false`
variants of `get_context` return exactly the same sequence: every mutation
trims each bucket to at most `context_window` records, so the extended limit
of 100 never binds.  (The claim fails at `context_window = 0`, where the
Python slice `msgs[-0:]` is the whole list and buckets grow unboundedly; see
the counterexample.) -/
theorem c9_get_context_extended_agrees (ops : List TOp) (c0 : ℚ)
    (cw mah : Nat) (hcw : 1 ≤ cw) (h100 : cw ≤ 100)
    (hch : chrono c0 ops = true) (uid cid : Nat) (tp : ℚ) :
    (get_context uid cid tp true (applyTrace ops (initTracker cw mah))).1 =
    (get_context uid cid tp false (applyTrace ops (initTracker cw mah))).1 := by
  have hst := StateOk.applyTrace ops c0 (initTracker cw mah) hcw hch
    (StateOk.init cw mah c0)
  have hcweq : (applyTrace ops (initTracker cw mah)).context_window = cw :=
    applyTrace_cw ops (initTracker cw mah)
  refine get_context_extended_eq _ uid cid tp (by rw [hcweq]; exact h100) ?_
  exact (hst (uid, cid)).1

/-- Witness for C9: the theorem applied to a concrete two-call trace with
`context_window = 2`. -/
theorem c9_get_context_extended_agrees_witness :
    (1 ≤ 2 ∧ 2 ≤ 100 ∧
      chrono 0 [TOp.user 1 2 "hey" 0 0, TOp.bot 1 2 "hi" 1] = true) ∧
    (get_context 1 2 5 true
        (applyTrace [TOp.user 1 2 "hey" 0 0, TOp.bot 1 2 "hi" 1]
          (initTracker 2 0))).1 =
      (get_context 1 2 5 false
        (applyTrace [TOp.user 1 2 "hey" 0 0, TOp.bot 1 2 "hi" 1]
          (initTracker 2 0))).1 :=
  ⟨⟨by norm_num, by norm_num, by decide⟩,
   c9_get_context_extended_agrees
     [TOp.user 1 2 "hey" 0 0, TOp.bot 1 2 "hi" 1] 0 2 0
     (by norm_num) (by norm_num) (by decide) 1 2 5⟩

/-- Counterexample for C9 as stated: with `context_window = 0` — which the
claim's bound `context_window ≤ 100` admits — the Python slice `msgs[-0:]`
keeps the whole bucket, so after 101 `add_message` calls the bucket holds
101 records and the two `get_context` variants differ (100 records versus
101). -/
theorem c9_counterexample :
    (0 : Nat) ≤ 100 ∧
    (get_context 1 2 0 true
        (applyTrace (List.replicate 101 (TOp.user 1 2 "m" 0 0))
          (initTracker 0 0))).1 ≠
      (get_context 1 2 0 false
        (applyTrace (List.replicate 101 (TOp.user 1 2 "m" 0 0))
          (initTracker 0 0))).1 :=
  ⟨by norm_num, by set_option maxRecDepth 100000 in decide⟩

/-- Counterexample for C1 as stated: a message that reaches the oracle
delegation (no deterministic short-circuit) whose oracle call raises — the
connection-error/timeout case — yields `shouldRespond = false`, not the
claimed `true`: `_ask_ai` catches the exception itself and returns
`(False, "Error in AI decision: ...")`, so the fail-open default in
`should_respond`'s own `except` branch is never reached for oracle
failures. -/
theorem c1_counterexample :
    (should_respond ⟨"hello friend", [], false, [⟨1, "alice"⟩], some 99⟩ none 0
      (initTracker 15 24) 5 "sol" true (OracleOutcome.requestError "timeout")
      (fun _ => EngParse.noJson)).1 = false := by
  decide

/-- C1 (amended): for every message whose engagement decision is delegated
to the oracle (no deterministic short-circuit applied) with an API key
configured, an oracle failure — a raised request (connection error or
timeout) or a non-200 status — makes `should_respond` return
`shouldRespond = false` (fail-closed); the `respond = true` defaults exist
only for the no-API-key path and for exceptions raised outside `_ask_ai`. -/
theorem c1_oracle_failure_fail_closed (m : MsgIn) (warn : Option WarnData)
    (now : ℚ) (st : TrackerState) (cid : Nat) (botName : String)
    (parse : String → EngParse)
    (hdet : deterministicPhase m warn now st cid botName = none) :
    (∀ e, (should_respond m warn now st cid botName true
      (OracleOutcome.requestError e) parse).1 = false) ∧
    (∀ status choice, status ≠ 200 →
      (should_respond m warn now st cid botName true
        (OracleOutcome.response status choice) parse).1 = false) := by
  constructor
  · intro e
    simp [should_respond, hdet, ask_ai]
  · intro status choice hs
    simp [should_respond, hdet, ask_ai, hs]

/-- Witness for C1 (amended) at a concrete message and a 500 status. -/
theorem c1_oracle_failure_fail_closed_witness :
    deterministicPhase ⟨"hello friend", [], false, [⟨1, "alice"⟩], some 99⟩
      none 0 (initTracker 15 24) 5 "sol" = none ∧
    500 ≠ 200 ∧
    (should_respond ⟨"hello friend", [], false, [⟨1, "alice"⟩], some 99⟩ none 0
      (initTracker 15 24) 5 "sol" true (OracleOutcome.response 500 none)
      (fun _ => EngParse.noJson)).1 = false :=
  ⟨by decide, by decide,
   (c1_oracle_failure_fail_closed ⟨"hello friend", [], false, [⟨1, "alice"⟩],
       some 99⟩ none 0 (initTracker 15 24) 5 "sol" (fun _ => EngParse.noJson)
       (by decide)).2 500 none (by decide)⟩

/-- Counterexample for C5 as stated: a reply to member `bob` with no mention
of the agent is indeed refused even when the oracle would say yes, but the
reason is the fixed generic text — `reply_target_name` is never assigned in
`should_respond` (the fetch is deferred to `bot.py`) — so the reason does
not cite `bob` by name. -/
theorem c5_counterexample :
    should_respond ⟨"i agree with that", [], true, [⟨42, "bob"⟩], some 99⟩ none 0
        (initTracker 15 24) 5 "sol" true
        (OracleOutcome.response 200 (some "yes please"))
        (fun _ => EngParse.ok (some true) (some "oracle says yes")) =
      (false, "Message is replying to someone else, not to Sol") ∧
    containsSub "Message is replying to someone else, not to Sol" "bob" = false := by
  constructor
  · decide
  · decide

/-- C5 (amended): a non-empty message carrying a reply reference and no
mention of the agent, from an author with no active warning-topic block, is
always refused with the fixed reason
"Message is replying to someone else, not to Sol" — which does not name the
reply target — regardless of the oracle outcome: the short-circuit dominates
the oracle. -/
theorem c5_reply_shortcircuit_generic_reason (m : MsgIn)
    (warn : Option WarnData) (now : ℚ) (st : TrackerState) (cid : Nat)
    (botName : String) (apiKey : Bool) (oracle : OracleOutcome)
    (parse : String → EngParse)
    (hne : ¬pyStrip m.content = "")
    (hwb : warnBlocked warn now m.content = false)
    (href : m.hasReference = true)
    (hbm : botMentionedCalc m botName = false) :
    should_respond m warn now st cid botName apiKey oracle parse =
      (false, "Message is replying to someone else, not to Sol") := by
  simp [should_respond, deterministicPhase, hne, hwb, href, hbm]

/-- Witness for C5 (amended) at the concrete reply-to-`bob` message. -/
theorem c5_reply_shortcircuit_generic_reason_witness :
    (¬pyStrip "i agree with that" = "" ∧
      warnBlocked none 0 "i agree with that" = false ∧
      botMentionedCalc ⟨"i agree with that", [], true, [⟨42, "bob"⟩], some 99⟩
        "sol" = false) ∧
    should_respond ⟨"i agree with that", [], true, [⟨42, "bob"⟩], some 99⟩ none 0
        (initTracker 15 24) 5 "sol" false (OracleOutcome.requestError "noop")
        (fun _ => EngParse.noJson) =
      (false, "Message is replying to someone else, not to Sol") :=
  ⟨⟨by decide, by decide, by decide⟩,
   c5_reply_shortcircuit_generic_reason
     ⟨"i agree with that", [], true, [⟨42, "bob"⟩], some 99⟩ none 0
     (initTracker 15 24) 5 "sol" false (OracleOutcome.requestError "noop")
     (fun _ => EngParse.noJson) (by decide) (by decide) (by decide) (by decide)⟩

/-- Counterexample for C7 as stated: at configured formality 6 — within the
claimed range 1–10 — the base short-response probability
`0.75 - 0.02 * formality` is `0.63`, below the claimed floor of `0.65`. -/
theorem c7_counterexample :
    (1 ≤ 6 ∧ 6 ≤ 10) ∧ baseShortChance 6 < 13 / 20 := by
  refine ⟨⟨by norm_num, by norm_num⟩, ?_⟩
  norm_num [baseShortChance]

/-- C7 (amended): for formality 1–10 the base short probability
`0.75 - 0.02 * formality` lies in `[0.55, 0.73]`, and reaches the claimed
`0.65` floor only for formality at most 5; and, as the original claim
states, when the incoming message has at most 10 tokens the final normalized
probability of "short" is strictly increased by the `0.2` bump (with the
reset-at-`0.95` cap), for every message type. -/
theorem c7_short_bias_bounds (f : Nat) (h1 : 1 ≤ f) (h10 : f ≤ 10) :
    (11 / 20 ≤ baseShortChance f ∧ baseShortChance f ≤ 73 / 100 ∧
      (f ≤ 5 → 13 / 20 ≤ baseShortChance f)) ∧
    ∀ ty : String,
      (normalizeChances (typeAdjust ty (initialChances f))).s <
        (normalizeChances (shortMsgAdjust (typeAdjust ty (initialChances f)))).s := by
  refine ⟨⟨?_, ?_, ?_⟩, ?_⟩
  · interval_cases f <;> norm_num [baseShortChance]
  · interval_cases f <;> norm_num [baseShortChance]
  · intro h5
    interval_cases f <;> norm_num [baseShortChance]
  · intro ty
    unfold typeAdjust
    split_ifs <;> interval_cases f <;>
      norm_num [normalizeChances, shortMsgAdjust, initialChances,
        baseShortChance, baseLongChance]

/-- Witness for C7 (amended) at formality 3 and message type `"casual"`. -/
theorem c7_short_bias_bounds_witness :
    (1 ≤ 3 ∧ 3 ≤ 10) ∧
    11 / 20 ≤ baseShortChance 3 ∧
    (normalizeChances (typeAdjust "casual" (initialChances 3))).s <
      (normalizeChances (shortMsgAdjust (typeAdjust "casual" (initialChances 3)))).s :=
  ⟨⟨by norm_num, by norm_num⟩,
   (c7_short_bias_bounds 3 (by norm_num) (by norm_num)).1.1,
   (c7_short_bias_bounds 3 (by norm_num) (by norm_num)).2 "casual"⟩

/-- Counterexample for C8 as stated: a 200 oracle reply whose JSON fails to
parse (braces found, `json.loads` raises — modelled by the parse parameter,
since the text between the braces here is not valid JSON) does not fall back
to `false`: the bare `except:` fallback returns `true` because the raw text
contains both "wait" and "true". -/
theorem c8_counterexample :
    should_wait_for_more_context
      ⟨[((1, 2), [⟨0, "hey", "user", "1"⟩])], [], [], 15, 24⟩ true 1 2
      (OracleOutcome.response 200 (some "\x7bwait true\x7d"))
      (fun _ => PatParse.parseFail) = true := by
  decide

/-- C8 (amended): `should_wait_for_more_context` returns `false` when the
bucket key is absent or its history is empty, when the oracle credential is
missing, when the oracle call raises (connection error or timeout), when the
status is not 200, and when no JSON braces are found in the reply; but on a
200 reply whose brace-delimited JSON fails to parse it returns `true` exactly
when the raw reply text contains both "wait" and "true" (case-insensitive),
rather than unconditionally `false`. -/
theorem c8_patience_failure_defaults (st : TrackerState) (apiKey : Bool)
    (uid cid : Nat) (oracle : OracleOutcome) (parse : String → PatParse) :
    (alistGet st.messages (uid, cid) = none →
      should_wait_for_more_context st apiKey uid cid oracle parse = false) ∧
    (alistGet st.messages (uid, cid) = some [] →
      should_wait_for_more_context st apiKey uid cid oracle parse = false) ∧
    (apiKey = false →
      should_wait_for_more_context st apiKey uid cid oracle parse = false) ∧
    (∀ e, should_wait_for_more_context st apiKey uid cid
      (OracleOutcome.requestError e) parse = false) ∧
    (∀ status choice, status ≠ 200 →
      should_wait_for_more_context st apiKey uid cid
        (OracleOutcome.response status choice) parse = false) ∧
    (∀ s, parse s = PatParse.noJson →
      should_wait_for_more_context st apiKey uid cid
        (OracleOutcome.response 200 (some s)) parse = false) ∧
    (∀ s msgs, alistGet st.messages (uid, cid) = some msgs → msgs ≠ [] →
      apiKey = true → parse s = PatParse.parseFail →
      should_wait_for_more_context st apiKey uid cid
        (OracleOutcome.response 200 (some s)) parse =
        (containsSub (pyLower s) "wait" && containsSub (pyLower s) "true")) := by
  have hne : ∀ msgs : List Rec, msgs ≠ [] →
      (if msgs.length ≥ 3 then pySliceLast 3 msgs else msgs).isEmpty = false := by
    intro msgs hm
    split
    · next h3 =>
      have hl3 : (pySliceLast 3 msgs).length = 3 := by
        unfold pySliceLast
        rw [if_neg (by omega), List.length_drop]
        omega
      cases hq : pySliceLast 3 msgs with
      | nil => rw [hq] at hl3; simp at hl3
      | cons a l => simp
    · cases msgs with
      | nil => exact absurd rfl hm
      | cons a l => simp
  refine ⟨?_, ?_, ?_, ?_, ?_, ?_, ?_⟩
  · intro h
    simp [should_wait_for_more_context, h]
  · intro h
    simp [should_wait_for_more_context, h, ask_ai_about_patience]
  · intro h
    subst h
    unfold should_wait_for_more_context
    cases alistGet st.messages (uid, cid) <;> simp [ask_ai_about_patience]
  · intro e
    unfold should_wait_for_more_context
    cases alistGet st.messages (uid, cid) <;> simp [ask_ai_about_patience]
  · intro status choice hs
    unfold should_wait_for_more_context
    cases alistGet st.messages (uid, cid) <;> simp [ask_ai_about_patience, hs]
  · intro s hp
    unfold should_wait_for_more_context
    cases alistGet st.messages (uid, cid) <;> simp [ask_ai_about_patience, hp]
  · intro s msgs hm hmne hk hp
    subst hk
    simp [should_wait_for_more_context, hm, ask_ai_about_patience, hp, hne msgs hmne]

/-- Witness for C8 (amended): the request-error conjunct at a concrete
state, and the parse-failure conjunct at a reply without the fallback
keywords. -/
theorem c8_patience_failure_defaults_witness :
    should_wait_for_more_context
      ⟨[((1, 2), [⟨0, "hey", "user", "1"⟩])], [], [], 15, 24⟩ true 1 2
      (OracleOutcome.requestError "timeout") (fun _ => PatParse.parseFail)
      = false ∧
    ((⟨0, "hey", "user", "1"⟩ : Rec) :: [] ≠ [] ∧
      should_wait_for_more_context
        ⟨[((1, 2), [⟨0, "hey", "user", "1"⟩])], [], [], 15, 24⟩ true 1 2
        (OracleOutcome.response 200 (some "no braces here"))
        (fun _ => PatParse.parseFail) =
        (containsSub (pyLower "no braces here") "wait" &&
          containsSub (pyLower "no braces here") "true")) :=
  ⟨(c8_patience_failure_defaults
      ⟨[((1, 2), [⟨0, "hey", "user", "1"⟩])], [], [], 15, 24⟩ true 1 2
      (OracleOutcome.requestError "timeout")
      (fun _ => PatParse.parseFail)).2.2.2.1 "timeout",
   by decide,
   (c8_patience_failure_defaults
      ⟨[((1, 2), [⟨0, "hey", "user", "1"⟩])], [], [], 15, 24⟩ true 1 2
      (OracleOutcome.response 200 (some "no braces here"))
      (fun _ => PatParse.parseFail)).2.2.2.2.2.2 "no braces here"
      [⟨0, "hey", "user", "1"⟩] rfl (by decide) rfl rfl⟩

/-- Witness for C6 at a concrete warned author (warning at time 0 lasting
600 seconds, current time 100): the non-addressed input is suppressed, the
explicitly mentioned one is engaged. -/
theorem c6_cooldown_gate_witness :
    on_message_outcome
      { authorIsBot := false, dotSolCommand := false, channelActive := true,
        violates := false, warnRoll := false, warnDeliveryOk := true,
        autoTimeout := false, warningThreshold := 3, timeoutMinutes := 1,
        violationCount := 1, directMention := false, isDm := false,
        userIdMention := false, roleMentionHit := false, hasReference := false,
        replyFetchOk := false, repliedAuthorIsBot := false,
        warn := some ⟨0, 600, "no piracy"⟩, now := 100, isBurst := false,
        patienceWait := false, content := "unrelated chatter",
        engineSays := true, stillTyping := false } ≠ MsgOutcome.engaged ∧
    on_message_outcome
      { authorIsBot := false, dotSolCommand := false, channelActive := true,
        violates := false, warnRoll := false, warnDeliveryOk := true,
        autoTimeout := false, warningThreshold := 3, timeoutMinutes := 1,
        violationCount := 1, directMention := true, isDm := false,
        userIdMention := false, roleMentionHit := false, hasReference := false,
        replyFetchOk := false, repliedAuthorIsBot := false,
        warn := some ⟨0, 600, "no piracy"⟩, now := 100, isBurst := false,
        patienceWait := false, content := "sol are you there",
        engineSays := false, stillTyping := false } = MsgOutcome.engaged :=
  ⟨(c6_cooldown_gate _ ⟨0, 600, "no piracy"⟩ rfl (by norm_num)).1
      ⟨rfl, rfl, rfl, rfl, by decide, rfl⟩,
   (c6_cooldown_gate _ ⟨0, 600, "no piracy"⟩ rfl (by norm_num)).2
      rfl rfl rfl rfl rfl⟩

end Sol
